import Mathlib

/-!
Verification development for the lead-qualification pipeline
(`lead_qual_crew/crewai_plus_lead_scoring`).

The Python sources are shallowly embedded here:
 - `tools/signal_validation_filter.py` (anti-hallucination signal filter),
 - `tools/network_tool.py` (domain-based connection matcher),
 - `crew.py` (`_calculate_deterministic_score`, `_determine_lead_status`),
 - the pydantic output models of `tasks.py`.

Python floats are modelled as rationals (every constant in the scored
arithmetic is a small decimal, exactly representable in both); Python
`Optional` values become `Option`, dictionaries become structures, and the
regular-expression searches are embedded as explicit character-list
scanners that mirror the concrete patterns (with `\w` read as the ASCII
word characters, which covers every string the program manipulates).
String processing (`lower`, `strip`, `split`) is carried out on character
lists by structural recursion so that every definition evaluates inside the
kernel.  Mutation of caller-owned records (the filter writes
`validation_status` into accepted signal dicts) is made explicit by
returning the post-call state of the input list alongside the returned
list.
-/

namespace LeadQual

attribute [local semireducible] Rat.add Rat.sub Rat.mul Rat.inv

/-- Python truthiness of an `Optional[str]`: `None` and `""` are falsy. -/
def pyTruthyStr : Option String → Bool
  | none => false
  | some s => s != ""

/-- Python `f"{o}"` rendering of an `Optional[str]`. -/
def pyStrOfOpt : Option String → String
  | none => "None"
  | some s => s

/-- Python `str.lower()` on a character list (ASCII case mapping). -/
def lowerChars (l : List Char) : List Char := l.map Char.toLower

/-- Python `str.strip()` on a character list. -/
def trimChars (l : List Char) : List Char :=
  ((l.dropWhile Char.isWhitespace).reverse.dropWhile Char.isWhitespace).reverse

/-- Python `str.split(c)` for a single-character separator (keeps empty
parts, `[""]` on the empty string). -/
def splitOnChar (c : Char) : List Char → List (List Char)
  | [] => [[]]
  | x :: xs =>
    let r := splitOnChar c xs
    if x == c then [] :: r
    else
      match r with
      | h :: t => (x :: h) :: t
      | [] => [[x]]

/-! ### Regular-expression scanners

`signal_validation_filter.py` uses `re` searches.  Each concrete pattern is
embedded as a decidable scanner over the character list of the (already
lower-cased) text.  `\b` is the word/non-word boundary with word characters
`[A-Za-z0-9_]` (ASCII reading of `\w`). -/

/-- ASCII reading of the regex word class `\w`. -/
def isWordChar (c : Char) : Bool := c.isAlphanum || c == '_'

/-- Whether position `i` of `t` holds a word character (out of range: no). -/
def charWordAt (t : List Char) (i : Nat) : Bool :=
  match t.get? i with
  | some c => isWordChar c
  | none => false

/-- The regex `\b` assertion between positions `i - 1` and `i`. -/
def boundaryAt (t : List Char) (i : Nat) : Bool :=
  (if i == 0 then false else charWordAt t (i - 1)) != charWordAt t i

/-- Literal match of `p` at position `i` of `t`. -/
def litAt (t : List Char) (i : Nat) (p : List Char) : Bool :=
  (t.drop i).take p.length == p

/-- Length of the maximal digit run of `t` starting at `i` (regex `\d+`). -/
def digitRunAt (t : List Char) (i : Nat) : Nat :=
  ((t.drop i).takeWhile Char.isDigit).length

/-- Length of the maximal whitespace run of `t` starting at `i` (regex `\s+`). -/
def wsRunAt (t : List Char) (i : Nat) : Nat :=
  ((t.drop i).takeWhile Char.isWhitespace).length

/-- Character at position `i` of `t`, if any. -/
def charAt (t : List Char) (i : Nat) : Option Char := t.get? i

/-- Match of the word-delimited literal `p` at `i`: `\b p \b`. -/
def wordPhraseAt (t : List Char) (i : Nat) (p : List Char) : Bool :=
  litAt t i p && boundaryAt t i && boundaryAt t (i + p.length)

/-- Search semantics of `re.search` for an alternation of word-delimited
literal phrases `\b(p1|...|pn)\b`. -/
def regexWordAltSearch (ps : List String) (t : List Char) : Bool :=
  (List.range (t.length + 1)).any fun i => ps.any fun p => wordPhraseAt t i p.toList

/-- The hedge phrases of `VAGUE_PHRASES_REGEX` in `signal_validation_filter.py`. -/
def vaguePhrases : List String :=
  ["may be", "might be", "could be", "seems to", "appears to", "potentially",
   "possibly", "rumored", "unconfirmed", "suggests", "likely", "expected to"]

/-- `VAGUE_PHRASES_REGEX.search` (the text is already lower-cased, so the
`re.IGNORECASE` flag is inert). -/
def hasVagueLanguage (t : List Char) : Bool := regexWordAltSearch vaguePhrases t

/-- Count-noun stems of `SPECIFIC_METRIC_REGEX` (`employees?` etc.). -/
def metricUnitWords : List String := ["employee", "position", "office", "user", "customer"]

/-- Match of a stem with regex-optional plural `s`, ending at a `\b`. -/
def optPluralAt (t : List Char) (i : Nat) (w : List Char) : Bool :=
  (litAt t i w && boundaryAt t (i + w.length)) ||
  (litAt t i (w ++ ['s']) && boundaryAt t (i + w.length + 1))

/-- Tail of the `\$\d+(?:\.\d+)?[mkb]?` alternative: the optional magnitude
letter followed by the closing `\b` (the regex engine backtracks over the
optional group, hence the disjunction). -/
def dollarTailOk (t : List Char) (j : Nat) : Bool :=
  boundaryAt t j ||
  ((charAt t j).any (fun c => c == 'm' || c == 'k' || c == 'b') && boundaryAt t (j + 1))

/-- Match of `SPECIFIC_METRIC_REGEX` starting at position `i`:
`\b(\d+%|\$\d+(?:\.\d+)?[mkb]?|\d+\s+(?:employees?|positions?|offices?|users?|customers?))\b`.
Note the leading `\b` also governs the `\$` alternative, so a dollar amount
after a space never matches this pattern (there is no word boundary between
two non-word characters). -/
def specificMetricAt (t : List Char) (i : Nat) : Bool :=
  boundaryAt t i &&
  ((let d := digitRunAt t i
    d > 0 &&
      ((charAt t (i + d) == some '%' && boundaryAt t (i + d + 1)) ||
       (let w := wsRunAt t (i + d)
        w > 0 && metricUnitWords.any fun u => optPluralAt t (i + d + w) u.toList))) ||
   (charAt t i == some '$' &&
    (let d := digitRunAt t (i + 1)
     d > 0 &&
       (dollarTailOk t (i + 1 + d) ||
        (charAt t (i + 1 + d) == some '.' &&
         (let f := digitRunAt t (i + 2 + d)
          f > 0 && dollarTailOk t (i + 2 + d + f)))))))

/-- `SPECIFIC_METRIC_REGEX.search` over the whole text. -/
def hasSpecificMetric (t : List Char) : Bool :=
  (List.range (t.length + 1)).any (specificMetricAt t)

/-- Match at `i` of the metric pattern used by `get_signal_confidence`:
`\b\d+%|\$\d+[mk]?\b|\b\d+\s+(?:employees|positions|offices)\b`.
Unlike `SPECIFIC_METRIC_REGEX`, the `%` alternative has no closing `\b` and
the `\$` alternative has no leading `\b`. -/
def confMetricAt (t : List Char) (i : Nat) : Bool :=
  (boundaryAt t i && (let d := digitRunAt t i; d > 0 && charAt t (i + d) == some '%')) ||
  (charAt t i == some '$' &&
   (let d := digitRunAt t (i + 1)
    d > 0 &&
      (boundaryAt t (i + 1 + d) ||
       ((charAt t (i + 1 + d)).any (fun c => c == 'm' || c == 'k') &&
        boundaryAt t (i + 2 + d))))) ||
  (boundaryAt t i &&
   (let d := digitRunAt t i
    d > 0 &&
      (let w := wsRunAt t (i + d)
       w > 0 &&
         (["employees", "positions", "offices"].any fun u =>
           litAt t (i + d + w) u.toList && boundaryAt t (i + d + w + u.toList.length)))))

/-- Search for the `get_signal_confidence` metric pattern. -/
def confHasMetric (t : List Char) : Bool :=
  (List.range (t.length + 1)).any (confMetricAt t)

/-- Search of `\$|€|£|\b(seed|series [a-z]|round|investment|raised)\b`
(the funding-signal keyword gate). -/
def fundingKeywordSearch (t : List Char) : Bool :=
  t.any (fun c => c == '$' || c == '€' || c == '£') ||
  regexWordAltSearch ["seed", "round", "investment", "raised"] t ||
  ((List.range (t.length + 1)).any fun i =>
    boundaryAt t i && litAt t i "series ".toList &&
      (charAt t (i + 7)).any Char.isLower && boundaryAt t (i + 8))

/-- Search of `\b(hiring|jobs?|careers?|\d+ positions?)\b`
(the hiring-signal keyword gate). -/
def hiringKeywordSearch (t : List Char) : Bool :=
  (List.range (t.length + 1)).any fun i =>
    boundaryAt t i &&
      (wordPhraseAt t i "hiring".toList ||
       optPluralAt t i "job".toList ||
       optPluralAt t i "career".toList ||
       (let d := digitRunAt t i
        d > 0 && charAt t (i + d) == some ' ' && optPluralAt t (i + d + 1) "position".toList))

/-! ### Signal records and the validation filter (`signal_validation_filter.py`) -/

/-- Content of a signal's `details` dictionary (the keys the filter reads). -/
structure SignalDetails where
  full_snippet : String := ""
  title : String := ""
  snippet : String := ""
  detected_keywords : List String := []
  timestamp : Option String := none
deriving DecidableEq, Repr

/-- A candidate-signal dictionary as consumed by `SignalValidationFilter`.
`details = none` models a missing or empty (falsy) `details` dict. -/
structure FilterSignal where
  signal_type : Option String := none
  description : String := ""
  source : String := ""
  source_url : Option String := none
  details : Option SignalDetails := none
  validation_status : Option String := none
deriving DecidableEq, Repr

/-- `HIGH_CREDIBILITY_SOURCES`. -/
def HIGH_CREDIBILITY_SOURCES : List String := ["techcrunch", "crunchbase", "sec_filing"]

/-- `LOWER_CREDIBILITY_SOURCES`. -/
def LOWER_CREDIBILITY_SOURCES : List String :=
  ["f6s", "startbase", "xing", "wellfound", "builtin", "semrush"]

/-- Membership of a (lower-cased) source in a source set. -/
def sourceMem (srcs : List String) (source : List Char) : Bool :=
  srcs.any fun x => x.toList == source

/-- The `combined_text` built by `_is_valid_signal`:
`f"{title} {description} {full_snippet}".lower()`, as a character list. -/
def combinedText (s : FilterSignal) : List Char :=
  lowerChars
    (((s.details.map (fun d => d.title)).getD "").toList ++ ' ' :: s.description.toList ++
      ' ' :: ((s.details.map (fun d => d.full_snippet)).getD "").toList)

/-- `SignalValidationFilter._is_valid_signal` (leading underscore dropped).
Only the accept/reject boolean is modelled; the companion reason string is
used by the caller solely for logging. -/
def is_valid_signal (s : FilterSignal) : Bool :=
  let source := lowerChars s.source.toList
  let ct := combinedText s
  if s.description == "" || source.isEmpty then false
  else if sourceMem LOWER_CREDIBILITY_SOURCES source && !pyTruthyStr s.source_url then false
  else
    let hasMetric := hasSpecificMetric ct
    let needsStrict := sourceMem LOWER_CREDIBILITY_SOURCES source || !hasMetric
    if needsStrict && hasVagueLanguage ct then false
    else if !sourceMem HIGH_CREDIBILITY_SOURCES source && (trimChars ct).length < 30 then false
    else if s.signal_type == some "funding_round" &&
        !sourceMem HIGH_CREDIBILITY_SOURCES source && !fundingKeywordSearch ct then false
    else if s.signal_type == some "hiring_activity" &&
        !sourceMem HIGH_CREDIBILITY_SOURCES source && !hiringKeywordSearch ct then false
    else true

/-- The in-place update `signal['validation_status'] = 'passed'` applied by
`filter_signals` to each accepted signal dict. -/
def setStatusPassed (s : FilterSignal) : FilterSignal :=
  { s with validation_status := some "passed" }

/-- Erase the `validation_status` key (used to compare records modulo the
one field `filter_signals` writes). -/
def clearValidationStatus (s : FilterSignal) : FilterSignal :=
  { s with validation_status := none }

/-- `SignalValidationFilter.filter_signals`.  Python mutates the accepted
signal dicts in place and returns a new list holding those same dicts; the
embedding returns the pair
(state of the caller's records after the call, returned validated list). -/
def filter_signals : List FilterSignal → List FilterSignal × List FilterSignal
  | [] => ([], [])
  | s :: rest =>
    let r := filter_signals rest
    if is_valid_signal s then (setStatusPassed s :: r.1, setStatusPassed s :: r.2)
    else (s :: r.1, r.2)

/-- `SignalValidationFilter.get_signal_confidence`.  The parameter
`tsRecent` abstracts the impure fragment
`datetime.fromisoformat(ts.replace('Z', '+00:00'))` compared against
`datetime.now()`: `tsRecent ts` holds iff the string parses and lies within
30 days of the current clock (parse failures yield `false`, as the
`except` clause does). -/
def get_signal_confidence (tsRecent : String → Bool) (s : FilterSignal) : ℚ :=
  let score1 : ℚ := if pyTruthyStr s.source_url then 3/10 else 0
  match s.details with
  | none => min score1 1
  | some d =>
    let text := lowerChars (s.description.toList ++ ' ' :: d.snippet.toList)
    let score2 : ℚ := if confHasMetric text then 2/10 else 0
    let score3 : ℚ := if d.detected_keywords.length ≥ 3 then 2/10 else 0
    let score4 : ℚ :=
      if pyTruthyStr d.timestamp && tsRecent (d.timestamp.getD "") then 3/10 else 0
    min (score1 + score2 + score3 + score4) 1

/-! ### Domain matcher (`tools/network_tool.py`) -/

/-- List-prefix test (Python `str.startswith`). -/
def startsWithChars (l p : List Char) : Bool := l.take p.length == p

/-- A contact roster entry.  Python rows are loosely-typed dicts;
`email = none` models a missing, `None`, or non-string `email` value (all
of which the matching loop skips the same way). -/
structure Contact where
  name : Option String := none
  email : Option String := none
deriving DecidableEq, Repr

/-- One entry of the `matching_contacts` list built by `DomainMatchTool._run`. -/
structure MatchInfo where
  name : String
  email : String
  matched_domain : String
deriving DecidableEq, Repr

/-- The three shapes of string `DomainMatchTool._run` returns: the
"Failed to determine lead domain" message, the "No contacts found" message,
and the rendered match list. -/
inductive DomainMatchResult where
  | undetermined
  | noMatches (leadDomain : String)
  | found (leadDomain : String) (matchList : List MatchInfo)
deriving DecidableEq, Repr

/-- The match list carried by a `DomainMatchResult` (empty unless matches
were found). -/
def resultMatches : DomainMatchResult → List MatchInfo
  | .undetermined => []
  | .noMatches _ => []
  | .found _ ms => ms

/-- `DomainMatchTool._extract_domain_from_url` (leading underscore
dropped).  `urlparse(url).netloc` for an `http(s)://` URL is the text
between the scheme separator and the first `/`, `?` or `#`.  The
`www.` strip happens before the lower-casing, exactly as in the source. -/
def extract_domain_from_url (url : String) : Option String :=
  if url == "" then none
  else
    let u := url.toList
    let u := if startsWithChars u "http://".toList || startsWithChars u "https://".toList
      then u else "http://".toList ++ u
    let rest := if startsWithChars u "http://".toList then u.drop 7 else u.drop 8
    let netloc := rest.takeWhile fun c => !(c == '/' || c == '?' || c == '#')
    let domain := if startsWithChars netloc "www.".toList then netloc.drop 4 else netloc
    if domain.isEmpty then none else some (String.mk (lowerChars domain))

/-- `DomainMatchTool._extract_domain_from_email` (leading underscore
dropped).  `email.split('@')[1]`, lower-cased; `None` when the address is
empty or has no `@` or an empty domain part. -/
def extract_domain_from_email (email : String) : Option String :=
  if email == "" || !email.toList.contains '@' then none
  else
    let domain := (splitOnChar '@' email.toList).getD 1 []
    if domain.isEmpty then none else some (String.mk (lowerChars domain))

/-- The lead-domain resolution at the top of `DomainMatchTool._run`:
website first (when truthy), e-mail as fallback when the website yielded
nothing. -/
def leadDomainOf (lead_website lead_email : Option String) : Option String :=
  let fromSite :=
    if pyTruthyStr lead_website then extract_domain_from_url (lead_website.getD "") else none
  match fromSite with
  | some d => some d
  | none => if pyTruthyStr lead_email then extract_domain_from_email (lead_email.getD "") else none

/-- The contact-matching loop of `DomainMatchTool._run`: skip entries with
missing/falsy/non-string e-mails, match on exact (lower-cased) domain
equality. -/
def matchingContacts (contacts : List Contact) (leadDomain : String) : List MatchInfo :=
  contacts.filterMap fun contact =>
    match contact.email with
    | none => none
    | some em =>
      if em == "" then none
      else
        match extract_domain_from_email em with
        | none => none
        | some cd =>
          if cd == leadDomain then
            some { name := (contact.name).getD "N/A", email := em, matched_domain := cd }
          else none

/-- `DomainMatchTool._run` (leading underscore dropped). -/
def domain_match_run (contacts_data : List Contact)
    (lead_website lead_email : Option String) : DomainMatchResult :=
  match leadDomainOf lead_website lead_email with
  | none => .undetermined
  | some d =>
    let ms := matchingContacts contacts_data d
    if ms.isEmpty then .noMatches d else .found d ms

/-! ### Deterministic scoring engine (`crew.py`) -/

/-- A detected-signal record (`PositiveSignalOutput` / `NegativeSignalOutput`
in `tasks.py`; the two pydantic models have identical shape). -/
structure SignalOut where
  signal_type : String
  description : String := ""
  source : String := ""
  source_url : Option String := none
  detected_at : Option String := none
  confidence : Option ℚ := some (7/10)
deriving DecidableEq, Repr

/-- `PositiveSignalDetectionOutput` / `NegativeSignalDetectionOutput`. -/
structure DetectionOutput where
  detected_signals : List SignalOut := []
deriving DecidableEq, Repr

/-- The dynamic type of the `validated_*_signals` arguments of
`_calculate_deterministic_score`.  The signature annotates them as
`Optional[List[PositiveSignalDetectionOutput]]`, but the only caller passes
the `ValidationTaskOutput` fields, which pydantic types as bare
`PositiveSignalDetectionOutput` / `NegativeSignalDetectionOutput` model
instances — so all three shapes occur in the program and the body
discriminates them dynamically with `isinstance`. -/
inductive PyDetectionArg where
  | pynone
  | pylist (l : List DetectionOutput)
  | pymodel (m : DetectionOutput)
deriving DecidableEq, Repr

/-- The lead fields `_calculate_deterministic_score` reads from the
`lead_data` dict (`.get`, so a missing key is `none`). -/
structure LeadData where
  position : Option String := none
  industry : Option String := none
  region : Option String := none
  company_size : Option String := none
  connection_degree : Option Int := none
  last_contacted : Option String := none
deriving DecidableEq, Repr

/-- The ICP preference lists read from the `user_preferences` dict (each
entry may itself be a comma-joined multi-value string). -/
structure UserPreferences where
  icp_role : List String := []
  icp_industry : List String := []
  icp_region : List String := []
  icp_company_size : List String := []
deriving DecidableEq, Repr

/-- The `component_scores` dictionary assembled by
`_calculate_deterministic_score`. -/
structure ComponentScores where
  icp_match_score : ℚ
  icp_match_reasons : List String
  connection_degree_score : ℚ
  connection_degree : Option Int
  negative_signals_score : ℚ
  negative_signals_count : Nat
  negative_signals_strong_count : Nat
  positive_signals_score : ℚ
  positive_signals_count : Nat
  positive_signals_strong_count : Nat
  engagement_score : ℚ
  last_contacted : Bool
deriving DecidableEq, Repr

/-- The `ScoringOutput` pydantic model of `tasks.py`. -/
structure ScoringOutput where
  score : ℚ
  reasoning : String
  ai_confidence : ℚ
deriving DecidableEq, Repr

/-- The `check_match` helper of `_calculate_deterministic_score`: split the
lead attribute and every preference entry on commas into lower-cased
trimmed tokens and test for a common token. -/
def check_match (leadValue : Option String) (prefValuesList : List String) : Bool :=
  match leadValue with
  | none => false
  | some v =>
    if prefValuesList.isEmpty then false
    else
      let leadLower := trimChars (lowerChars v.toList)
      let processedPrefs := prefValuesList.flatMap fun item =>
        (splitOnChar ',' item.toList).filterMap fun p =>
          let t := trimChars p
          if t.isEmpty then none else some (lowerChars t)
      let leadParts := (splitOnChar ',' leadLower).filterMap fun p =>
        let t := trimChars p
        if t.isEmpty then none else some (lowerChars t)
      leadParts.any fun part => processedPrefs.contains part

/-- `STRONG_SIGNALS["positive"]`. -/
def STRONG_POSITIVE_SIGNALS : List String :=
  ["series_funding", "cxo_hiring", "gov_contract", "ipo_filing"]

/-- `STRONG_SIGNALS["negative"]`. -/
def STRONG_NEGATIVE_SIGNALS : List String :=
  ["delisting_notice", "sec_investigation", "pension_freezing"]

/-- `NORMAL_POS_POINTS`. -/
def NORMAL_POS_POINTS : ℚ := 5

/-- `STRONG_POS_POINTS`. -/
def STRONG_POS_POINTS : ℚ := 10

/-- `NORMAL_NEG_DEDUCTION`. -/
def NORMAL_NEG_DEDUCTION : ℚ := -10

/-- `STRONG_NEG_DEDUCTION`. -/
def STRONG_NEG_DEDUCTION : ℚ := -15

/-- `MAX_POS_SIGNAL_SCORE`. -/
def MAX_POS_SIGNAL_SCORE : ℚ := 20

/-- `MAX_NEG_SIGNAL_DEDUCTION`. -/
def MAX_NEG_SIGNAL_DEDUCTION : ℚ := -30

/-- The negative-signal deduction accumulation loop: each strong negative
signal adds `abs(STRONG_NEG_DEDUCTION)`, each ordinary one adds
`abs(NORMAL_NEG_DEDUCTION)`. -/
def negativeDeduction (sigs : List SignalOut) : ℚ :=
  sigs.foldl
    (fun acc s =>
      acc +
        (if STRONG_NEGATIVE_SIGNALS.contains s.signal_type then abs STRONG_NEG_DEDUCTION
         else abs NORMAL_NEG_DEDUCTION))
    0

/-- Number of signals in the list whose type is on the given strong list. -/
def strongCount (strong : List String) (sigs : List SignalOut) : Nat :=
  (sigs.filter fun s => strong.contains s.signal_type).length

/-- The signal list the negative-signals block actually iterates.  The
guard is `if validated_negative_signals and isinstance(validated_negative_signals, NegativeSignalDetectionOutput)`:
`None` and the empty list are falsy, a non-empty list fails the
`isinstance` test against the model class, and only a bare model instance
(always truthy) enters the block. -/
def negBranchSignals : PyDetectionArg → List SignalOut
  | .pymodel m => m.detected_signals
  | _ => []

/-- The negative-signals component: `30.0 - min(deduction, 30.0)`. -/
def negativeContribution (arg : PyDetectionArg) : ℚ :=
  30 - min (negativeDeduction (negBranchSignals arg)) (abs MAX_NEG_SIGNAL_DEDUCTION)

/-- Fixed-point rendering of a rational, mirroring Python `f"{x:.1f}"` /
`f"{x:.2f}"` (round half to even; exact for the decimal values the scorer
produces). -/
def roundHalfEven (x : ℚ) : ℤ :=
  let f := ⌊x⌋
  let r := x - (f : ℚ)
  if r < 1/2 then f else if 1/2 < r then f + 1 else if f % 2 == 0 then f else f + 1

/-- Format `q` with `prec` digits after the decimal point. -/
def fmtFixed (prec : Nat) (q : ℚ) : String :=
  let n := roundHalfEven (q * ((10 : ℚ) ^ prec))
  let sign := if n < 0 then "-" else ""
  let a := n.natAbs
  let p := (10 : Nat) ^ prec
  let frac := toString (a % p)
  let pad := String.mk (List.replicate (prec - frac.length) '0')
  sign ++ toString (a / p) ++ "." ++ pad ++ frac

/-- `LeadScoringCrew._calculate_deterministic_score` (leading underscore
dropped).  Returns `Except.error ()` for the run that dies with a
`TypeError`: when the positive argument is a bare pydantic model the guard
`validated_positive_signals and isinstance(..., PositiveSignalDetectionOutput)`
passes (models are truthy) and the next line calls
`len(validated_positive_signals)` on a model that defines no `__len__`.
When the argument is a list (as the signature annotates), the `isinstance`
test fails and the block is skipped, leaving zero positive points. -/
def calculate_deterministic_score (lead_data : LeadData) (user_preferences : UserPreferences)
    (validated_positive_signals validated_negative_signals : PyDetectionArg)
    (ai_confidence : ℚ) : Except Unit (ScoringOutput × ComponentScores) :=
  -- 1. ICP Match (30 points total = 5 + 10 + 5 + 10)
  let roleM := check_match lead_data.position user_preferences.icp_role
  let indM := check_match lead_data.industry user_preferences.icp_industry
  let regM := check_match lead_data.region user_preferences.icp_region
  let sizeM := check_match lead_data.company_size user_preferences.icp_company_size
  let icpScore : ℚ := (if roleM then 5 else 0) + (if indM then 10 else 0) +
    (if regM then 5 else 0) + (if sizeM then 10 else 0)
  let icpReasons : List String :=
    (if roleM then ["Role Match (" ++ pyStrOfOpt lead_data.position ++ ")"] else []) ++
    (if indM then ["Industry Match (" ++ pyStrOfOpt lead_data.industry ++ ")"] else []) ++
    (if regM then ["Region Match (" ++ pyStrOfOpt lead_data.region ++ ")"] else []) ++
    (if sizeM then ["Size Match (" ++ pyStrOfOpt lead_data.company_size ++ ")"] else [])
  -- 2. Connection Degree (10 points)
  let connectionScore : ℚ :=
    if lead_data.connection_degree == some 1 then 10
    else if lead_data.connection_degree == some 2 then 5
    else 0
  -- 3. Negative Signals Impact
  let negSigs := negBranchSignals validated_negative_signals
  let numNeg := negSigs.length
  let strongNeg := strongCount STRONG_NEGATIVE_SIGNALS negSigs
  let negContribution := negativeContribution validated_negative_signals
  -- 4. Positive Signals Impact
  match validated_positive_signals with
  | .pymodel _ => .error ()
  | _ =>
    let posPoints : ℚ := 0
    let numPos : Nat := 0
    let strongPos : Nat := 0
    let cappedPos := min posPoints MAX_POS_SIGNAL_SCORE
    -- 5. Engagement History (10 points)
    let contacted := pyTruthyStr lead_data.last_contacted
    let engagementScore : ℚ := if contacted then 10 else 0
    let totalScore := icpScore + connectionScore + negContribution + cappedPos + engagementScore
    let finalScore := max 0 (min 100 totalScore)
    let reasoningParts : List String :=
      ["ICP Match: " ++ fmtFixed 1 icpScore ++ "/30 (" ++ toString icpReasons.length ++
         " matches)",
       "Connection: " ++ fmtFixed 1 connectionScore ++ "/10 (Degree: " ++
         (match lead_data.connection_degree with
          | some d => toString d
          | none => "Unknown") ++ ")",
       "Neg Signals: " ++ fmtFixed 1 negContribution ++ "/30 (" ++ toString numNeg ++
         " found, " ++ toString strongNeg ++ " strong)",
       "Pos Signals: +" ++ fmtFixed 1 cappedPos ++ "/" ++ fmtFixed 1 MAX_POS_SIGNAL_SCORE ++
         " (" ++ toString numPos ++ " found, " ++ toString strongPos ++ " strong)",
       "Engagement: " ++ fmtFixed 1 engagementScore ++ "/10 (" ++
         (if contacted then "Yes" else "No") ++ ")"]
    let finalReasoning := "Score: " ++ fmtFixed 1 finalScore ++ ". Confidence: " ++
      fmtFixed 2 ai_confidence ++ ". Breakdown: " ++ String.intercalate " | " reasoningParts
    .ok
      ({ score := finalScore, reasoning := finalReasoning, ai_confidence := ai_confidence },
       { icp_match_score := icpScore
         icp_match_reasons := icpReasons
         connection_degree_score := connectionScore
         connection_degree := lead_data.connection_degree
         negative_signals_score := negContribution
         negative_signals_count := numNeg
         negative_signals_strong_count := strongNeg
         positive_signals_score := cappedPos
         positive_signals_count := numPos
         positive_signals_strong_count := strongPos
         engagement_score := engagementScore
         last_contacted := contacted })

/-- The `LeadStatus` enum of `database.py`. -/
inductive LeadStatus where
  | money
  | hot
  | warm
  | cold
deriving DecidableEq, Repr

/-- `LeadScoringCrew._determine_lead_status` (leading underscore dropped). -/
def determine_lead_status (score : ℚ) : LeadStatus :=
  if score ≥ 85 then .money
  else if score ≥ 60 then .hot
  else if score ≥ 40 then .warm
  else .cold

/-- Payload of an `Except` result, with a fallback for the error case. -/
def okOutD (r : Except Unit (ScoringOutput × ComponentScores))
    (d : ScoringOutput × ComponentScores) : ScoringOutput × ComponentScores :=
  match r with
  | .ok p => p
  | .error _ => d

/-- All-zero fallback payload for `okOutD`. -/
def defaultScorePair : ScoringOutput × ComponentScores :=
  ({ score := 0, reasoning := "", ai_confidence := 0 },
   { icp_match_score := 0
     icp_match_reasons := []
     connection_degree_score := 0
     connection_degree := none
     negative_signals_score := 0
     negative_signals_count := 0
     negative_signals_strong_count := 0
     positive_signals_score := 0
     positive_signals_count := 0
     positive_signals_strong_count := 0
     engagement_score := 0
     last_contacted := false })

/-! ### Batch validation and aggregate confidence

The batch step (spec 4.3) is carried out in the repository by an LLM agent:
`validate_signals_task` in `tasks.py` is a natural-language prompt whose
instruction step 5 prescribes the confidence policy, and the only
executable artefacts are that prompt and the `ValidationTaskOutput` pydantic
declaration (`ai_confidence` merely constrained to `[0, 1]`).  No
deterministic code in `src` computes the aggregate confidence, so that part
is modelled from the spec below. -/

/-- The `ValidatedSignalSet` of the spec data model. -/
structure ValidatedSignalSet where
  positive : List FilterSignal
  negative : List FilterSignal
  ai_confidence : ℚ
deriving DecidableEq

/-- Modelled from the spec: the aggregate-confidence assignment is made by
the opaque validator agent (prompt in `tasks.py`, `validate_signals_task`,
instruction 5) and is missing from `src` as executable code.  Following the
spec and the prompt: zero surviving signals receive the minimum confidence
0.3; otherwise the agent's (opaque) quality assessment `q` is reported
within the prescribed band `[0.3, 1.0]`. -/
def aggregate_confidence_spec (survivors : Nat) (q : ℚ) : ℚ :=
  if survivors == 0 then 3/10 else max (3/10) (min 1 q)

/-- Modelled from the spec: `validate_batch` (spec 4.3) applies the
single-record validator to each candidate in both lists independently and
attaches the aggregate confidence; the per-record filtering is the
`filter_signals` code of `signal_validation_filter.py`, the confidence
policy is `aggregate_confidence_spec`, and `q` abstracts the agent's
quality assessment of the surviving signals. -/
def validate_batch (positive_candidates negative_candidates : List FilterSignal)
    (q : ℚ) : ValidatedSignalSet :=
  let vp := (filter_signals positive_candidates).2
  let vn := (filter_signals negative_candidates).2
  { positive := vp, negative := vn,
    ai_confidence := aggregate_confidence_spec (vp.length + vn.length) q }

/-! ### Transcriptions of spec formulas, for comparison with the code -/

/-- Transcription of the claimed per-signal confidence formula (spec 4.2,
claim C8), for comparison with `get_signal_confidence`: start 0; +0.3 if a
source_url is present; +0.2 if the specific-metric pattern is found in the
signal text; +0.2 if at least 3 distinct contextual keywords are detected;
+0.3 if a parseable timestamp no older than 30 days exists; clamped to
`[0, 1]`.  The bonuses here do not depend on whether the `details` dict is
empty, and the keyword bonus counts distinct keywords. -/
def signal_confidence_claim_formula (tsRecent : String → Bool) (s : FilterSignal) : ℚ :=
  let text := lowerChars
    (s.description.toList ++ ' ' :: ((s.details.map (fun d => d.snippet)).getD "").toList)
  let b1 : ℚ := if pyTruthyStr s.source_url then 3/10 else 0
  let b2 : ℚ := if confHasMetric text then 2/10 else 0
  let b3 : ℚ :=
    if ((s.details.map (fun d => d.detected_keywords)).getD []).dedup.length ≥ 3 then 2/10 else 0
  let b4 : ℚ :=
    if pyTruthyStr (s.details.bind (fun d => d.timestamp)) &&
        tsRecent ((s.details.bind (fun d => d.timestamp)).getD "") then 3/10 else 0
  max 0 (min (b1 + b2 + b3 + b4) 1)

/-- Transcription of the amended per-signal confidence statement, for
comparison with `get_signal_confidence`: +0.3 if a source_url is present,
and — only when the `details` dict is non-empty — +0.2 if the metric
pattern matches the description-plus-snippet text, +0.2 if the
`detected_keywords` list has at least 3 entries (not necessarily distinct),
and +0.3 if a truthy timestamp parses and lies within 30 days of now; the
sum is capped at 1.0. -/
def signal_confidence_spec_amended (tsRecent : String → Bool) (s : FilterSignal) : ℚ :=
  min
    ((if pyTruthyStr s.source_url then 3/10 else 0) +
      (match s.details with
       | none => 0
       | some d =>
         (if confHasMetric (lowerChars (s.description.toList ++ ' ' :: d.snippet.toList))
          then 2/10 else 0) +
         (if d.detected_keywords.length ≥ 3 then 2/10 else 0) +
         (if pyTruthyStr d.timestamp && tsRecent (d.timestamp.getD "") then 3/10 else 0)))
    1

/-! ### Concrete fixtures -/

/-- A clock oracle under which no timestamp counts as recent. -/
def tsNever : String → Bool := fun _ => false

/-- The spec's rejected validator example: a hedged claim from a
lower-credibility source without a source URL. -/
def c6RejectSignal : FilterSignal :=
  { description := "Company might be expanding", source := "startbase", source_url := none }

/-- The spec's accepted validator example: a concrete funding fact from a
high-credibility source with a source URL. -/
def c6AcceptSignal : FilterSignal :=
  { description := "Company raised $10M Series A", source := "techcrunch",
    source_url := some "http://techcrunch.com/articles/123" }

/-- The end-to-end example lead of spec 8. -/
def c3Lead : LeadData :=
  { position := some "CEO", industry := some "SaaS", region := some "US",
    company_size := some "10-50", connection_degree := some 1,
    last_contacted := some "2024-01-01" }

/-- The end-to-end example preferences of spec 8. -/
def c3Prefs : UserPreferences :=
  { icp_role := ["ceo"], icp_industry := ["saas"], icp_region := ["us"],
    icp_company_size := ["10-50"] }

/-- One validated ordinary (non-strong) positive signal. -/
def c3PositiveSignal : SignalOut :=
  { signal_type := "expansion", description := "Opened a second office in Berlin",
    source := "techcrunch", source_url := some "http://techcrunch.com/articles/456" }

/-- One validated ordinary positive signal, passed the way the signature of
`_calculate_deterministic_score` types the argument (a list of detection
outputs). -/
def c3PosArg : PyDetectionArg := .pylist [{ detected_signals := [c3PositiveSignal] }]

/-- Zero validated negative signals, as a list of detection outputs. -/
def c3NegArg : PyDetectionArg := .pylist [{ detected_signals := [] }]

/-- The scorer's output on the end-to-end example of spec 8. -/
def c3Run : ScoringOutput × ComponentScores :=
  okOutD (calculate_deterministic_score c3Lead c3Prefs c3PosArg c3NegArg (8/10))
    defaultScorePair

/-- Four validated negative signals (one strong), passed as a bare pydantic
model instance — the one shape that enters the negative-signals block. -/
def c7NegArg : PyDetectionArg :=
  .pymodel
    { detected_signals :=
        [{ signal_type := "delisting_notice", description := "Delisting notice issued" },
         { signal_type := "layoffs", description := "Laid off a large team" },
         { signal_type := "negative_reviews", description := "Review scores dropped" },
         { signal_type := "financial_trouble", description := "Missed payroll twice" }] }

/-- The scorer's output with the four negative signals of `c7NegArg`. -/
def c7Run : ScoringOutput × ComponentScores :=
  okOutD (calculate_deterministic_score c3Lead c3Prefs (.pylist []) c7NegArg (1/2))
    defaultScorePair

/-- Signal whose text carries a specific metric but whose `details` dict is
empty. -/
def c8Signal : FilterSignal :=
  { description := "raised $10m", source := "techcrunch", source_url := none, details := none }

/-- The roster of the spec's domain-match example. -/
def c5Roster : List Contact := [{ email := some "x@acme.com" }]

/-! ### Helper lemmas -/

lemma negativeDeduction_foldl_le (l : List SignalOut) (a : ℚ) :
    a ≤ l.foldl
      (fun acc s =>
        acc +
          (if STRONG_NEGATIVE_SIGNALS.contains s.signal_type then abs STRONG_NEG_DEDUCTION
           else abs NORMAL_NEG_DEDUCTION))
      a := by
  induction l generalizing a with
  | nil => simp
  | cons s rest ih =>
    simp only [List.foldl_cons]
    refine le_trans (le_add_of_nonneg_right ?_) (ih _)
    split <;> norm_num [STRONG_NEG_DEDUCTION, NORMAL_NEG_DEDUCTION]

lemma negativeDeduction_nonneg (l : List SignalOut) : 0 ≤ negativeDeduction l :=
  negativeDeduction_foldl_le l 0

lemma negativeContribution_bounds (arg : PyDetectionArg) :
    0 ≤ negativeContribution arg ∧ negativeContribution arg ≤ 30 := by
  have hD := negativeDeduction_nonneg (negBranchSignals arg)
  have habs : abs MAX_NEG_SIGNAL_DEDUCTION = 30 := by
    norm_num [MAX_NEG_SIGNAL_DEDUCTION]
  have h1 : min (negativeDeduction (negBranchSignals arg)) (abs MAX_NEG_SIGNAL_DEDUCTION) ≤ 30 := by
    rw [habs]; exact min_le_right _ _
  have h2 : 0 ≤ min (negativeDeduction (negBranchSignals arg)) (abs MAX_NEG_SIGNAL_DEDUCTION) := by
    rw [habs]; exact le_min hD (by norm_num)
  constructor <;> (unfold negativeContribution; linarith)

/-! ### The claims -/

/-- C1: for every lead record, user preferences, validated signal arguments
and aggregate confidence given to the deterministic scoring engine, every
final score it computes satisfies `0 ≤ score ≤ 100` (the grand total is
clamped into `[0, 100]`). -/
theorem score_within_bounds (lead : LeadData) (prefs : UserPreferences)
    (pos neg : PyDetectionArg) (conf : ℚ) (out : ScoringOutput × ComponentScores)
    (h : calculate_deterministic_score lead prefs pos neg conf = .ok out) :
    0 ≤ out.1.score ∧ out.1.score ≤ 100 := by
  cases pos with
  | pymodel m => simp [calculate_deterministic_score] at h
  | pynone =>
    simp only [calculate_deterministic_score, Except.ok.injEq] at h
    subst h
    exact ⟨le_max_left _ _, max_le (by norm_num) (min_le_left _ _)⟩
  | pylist l =>
    simp only [calculate_deterministic_score, Except.ok.injEq] at h
    subst h
    exact ⟨le_max_left _ _, max_le (by norm_num) (min_le_left _ _)⟩

/-- Witness for C1: the bounds hold on the concrete end-to-end run. -/
theorem score_within_bounds_witness :
    0 ≤ c3Run.1.score ∧ c3Run.1.score ≤ 100 :=
  score_within_bounds c3Lead c3Prefs c3PosArg c3NegArg (8/10) c3Run rfl

/-- C2: when zero candidate signals survive validation across both the
positive and the negative lists, the validated set's aggregate confidence
is at least 0.3 (modelled from the spec; the assignment itself is made by
the opaque validator agent of `tasks.py`). -/
theorem aggregate_confidence_floor (pc nc : List FilterSignal) (q : ℚ)
    (hp : (validate_batch pc nc q).positive = [])
    (hn : (validate_batch pc nc q).negative = []) :
    3/10 ≤ (validate_batch pc nc q).ai_confidence := by
  simp only [validate_batch] at hp hn ⊢
  rw [hp, hn]
  simp [aggregate_confidence_spec]

/-- Witness for C2: a batch whose only candidate is rejected (hedged claim
from a lower-credibility source without a URL) keeps confidence ≥ 0.3. -/
theorem aggregate_confidence_floor_witness :
    3/10 ≤ (validate_batch [c6RejectSignal] [] (9/10)).ai_confidence :=
  aggregate_confidence_floor [c6RejectSignal] [] (9/10) (by decide) (by decide)

/-- C3: on the spec's end-to-end example (lead CEO/SaaS/US/10-50,
degree 1, contacted, all four ICP axes matched, one ordinary positive
signal, zero negative signals) the code computes ICP 30, Connection 10,
Negative 30, Engagement 10 — but Positive 0, final score 80 and status
`hot`, not the claimed Positive 5, final 85 and top tier: the positive
block's `isinstance` test against the pydantic model class can never accept
the list the signature declares, so positive points are unreachable. -/
theorem end_to_end_example_code_result :
    calculate_deterministic_score c3Lead c3Prefs c3PosArg c3NegArg (8/10) = .ok c3Run ∧
    c3Run.2.icp_match_score = 30 ∧ c3Run.2.connection_degree_score = 10 ∧
    c3Run.2.negative_signals_score = 30 ∧ c3Run.2.positive_signals_score = 0 ∧
    c3Run.2.engagement_score = 10 ∧ c3Run.1.score = 80 ∧
    determine_lead_status c3Run.1.score = .hot := by
  refine ⟨rfl, ?_, ?_, ?_, ?_, ?_, ?_, ?_⟩ <;> decide

/-- C4: scoring is deterministic — two runs of the scoring engine on equal
lead data, equal preferences, equal validated signal arguments and equal
aggregate confidence return equal results (hence the same score, the same
reasoning string, the same ai_confidence and the same component-scores
map). -/
theorem scoring_deterministic (lead1 lead2 : LeadData) (prefs1 prefs2 : UserPreferences)
    (pos1 pos2 neg1 neg2 : PyDetectionArg) (conf1 conf2 : ℚ)
    (hl : lead1 = lead2) (hp : prefs1 = prefs2) (hpos : pos1 = pos2) (hneg : neg1 = neg2)
    (hc : conf1 = conf2) :
    calculate_deterministic_score lead1 prefs1 pos1 neg1 conf1 =
      calculate_deterministic_score lead2 prefs2 pos2 neg2 conf2 := by
  subst hl; subst hp; subst hpos; subst hneg; subst hc; rfl

/-- Witness for C4: two identical concrete runs coincide. -/
theorem scoring_deterministic_witness :
    calculate_deterministic_score c3Lead c3Prefs c3PosArg c3NegArg (8/10) =
      calculate_deterministic_score c3Lead c3Prefs c3PosArg c3NegArg (8/10) :=
  scoring_deterministic c3Lead c3Lead c3Prefs c3Prefs c3PosArg c3PosArg c3NegArg c3NegArg
    (8/10) (8/10) rfl rfl rfl rfl rfl

/-- C5 counterexample: with the roster `[{email: "x@acme.com"}]`, the run
on `"http://WWW.Acme.com"` yields zero matching contacts (not the claimed
one): the `www.` strip is applied before lower-casing and misses the
upper-case prefix, leaving lead domain `"www.acme.com"`.  The bare
`"acme.com"` run does yield one match. -/
theorem uppercase_www_no_match :
    (resultMatches (domain_match_run c5Roster (some "http://WWW.Acme.com") none)).length = 0 ∧
    (resultMatches (domain_match_run c5Roster (some "acme.com") none)).length = 1 := by
  decide

/-- C5 amended: the domain match lower-cases the extracted host but strips
only a lower-case `www.` prefix, so `"http://www.acme.com"` and
`"acme.com"` each yield exactly one match against
`[{email: "x@acme.com"}]`, while `"http://WWW.Acme.com"` yields none (its
lead domain is `"www.acme.com"`). -/
theorem lowercase_www_and_bare_domain_match :
    (resultMatches (domain_match_run c5Roster (some "http://www.acme.com") none)).length = 1 ∧
    (resultMatches (domain_match_run c5Roster (some "acme.com") none)).length = 1 ∧
    domain_match_run c5Roster (some "http://WWW.Acme.com") none = .noMatches "www.acme.com" := by
  decide

/-- C6: the single-signal validator rejects
`{description: "Company might be expanding", source: "startbase", source_url: None}`
(lower-credibility source without a URL) and accepts
`{description: "Company raised $10M Series A", source: "techcrunch"}` with
a source URL. -/
theorem validator_examples :
    is_valid_signal c6RejectSignal = false ∧ is_valid_signal c6AcceptSignal = true := by
  decide

/-- C7: for every validated-signal argument, the negative-signals component
contribution lies in `[0, 30]` (deductions are capped at the 30-point pool)
and the positive-signals component contribution never exceeds the
20-point `MAX_POS_SIGNAL_SCORE` cap. -/
theorem signal_contribution_bounds (lead : LeadData) (prefs : UserPreferences)
    (pos neg : PyDetectionArg) (conf : ℚ) (out : ScoringOutput × ComponentScores)
    (h : calculate_deterministic_score lead prefs pos neg conf = .ok out) :
    (0 ≤ out.2.negative_signals_score ∧ out.2.negative_signals_score ≤ 30) ∧
      out.2.positive_signals_score ≤ MAX_POS_SIGNAL_SCORE := by
  cases pos with
  | pymodel m => simp [calculate_deterministic_score] at h
  | pynone =>
    simp only [calculate_deterministic_score, Except.ok.injEq] at h
    subst h
    exact ⟨negativeContribution_bounds neg, min_le_right _ _⟩
  | pylist l =>
    simp only [calculate_deterministic_score, Except.ok.injEq] at h
    subst h
    exact ⟨negativeContribution_bounds neg, min_le_right _ _⟩

/-- Witness for C7: the bounds hold on a run with four validated negative
signals (45 points of raw deduction, capped at the 30-point pool). -/
theorem signal_contribution_bounds_witness :
    (0 ≤ c7Run.2.negative_signals_score ∧ c7Run.2.negative_signals_score ≤ 30) ∧
      c7Run.2.positive_signals_score ≤ MAX_POS_SIGNAL_SCORE :=
  signal_contribution_bounds c3Lead c3Prefs (.pylist []) c7NegArg (1/2) c7Run rfl

/-- C8 counterexample: on the signal
`{description: "raised $10m", source: "techcrunch", source_url: None, details: {}}`
the code returns confidence 0 although the claimed formula awards the +0.2
specific-metric bonus (the code evaluates the metric, keyword and timestamp
bonuses only when the `details` dict is non-empty). -/
theorem confidence_details_gate_counterexample :
    get_signal_confidence tsNever c8Signal = 0 ∧
    signal_confidence_claim_formula tsNever c8Signal = 2/10 := by
  decide

/-- C8 amended: the per-signal confidence equals +0.3 for a present
source_url plus — only when the `details` dict is non-empty — +0.2 for a
metric-pattern match on description-plus-snippet, +0.2 when the
`detected_keywords` list has at least 3 entries (not necessarily
distinct), +0.3 for a truthy timestamp parsing within 30 days, the sum
capped at 1.0. -/
theorem confidence_formula_amended (tsRecent : String → Bool) (s : FilterSignal) :
    get_signal_confidence tsRecent s = signal_confidence_spec_amended tsRecent s := by
  cases hd : s.details with
  | none => simp [get_signal_confidence, signal_confidence_spec_amended, hd]
  | some d =>
    simp only [get_signal_confidence, signal_confidence_spec_amended, hd]
    ring_nf

/-- C9: whenever neither the lead website nor the lead e-mail yields a
derivable domain, the domain match returns the explicit undetermined
result with an empty match list for every roster (and, being a total
function, raises nothing). -/
theorem no_domain_undetermined (contacts : List Contact) (w e : Option String)
    (h : leadDomainOf w e = none) :
    domain_match_run contacts w e = .undetermined ∧
      resultMatches (domain_match_run contacts w e) = [] := by
  simp [domain_match_run, h, resultMatches]

/-- Witness for C9: the undetermined result on a non-empty roster with no
website and no e-mail. -/
theorem no_domain_undetermined_witness :
    domain_match_run c5Roster none none = .undetermined ∧
      resultMatches (domain_match_run c5Roster none none) = [] :=
  no_domain_undetermined c5Roster none none rfl

/-- C10 counterexample: filtering the one-element list holding the accepted
techcrunch signal leaves the caller's record changed (it gains
`validation_status = "passed"`), and the returned signal equals no record
of the pre-call input list — the filter mutates accepted candidates
in place rather than leaving them unchanged. -/
theorem filter_mutates_counterexample :
    (filter_signals [c6AcceptSignal]).1 ≠ [c6AcceptSignal] ∧
    ((filter_signals [c6AcceptSignal]).2.all fun s => [c6AcceptSignal].contains s) = false := by
  decide

/-- C10 amended: modulo the `validation_status` field the filter writes
into accepted records, the batch filter's output is a sublist of its input
(no signal is fabricated), the input records are otherwise unchanged, and
every returned signal carries `validation_status = "passed"`. -/
theorem filter_subset_modulo_status (signals : List FilterSignal) :
    ((filter_signals signals).2.map clearValidationStatus).Sublist
        (signals.map clearValidationStatus) ∧
    (filter_signals signals).1.map clearValidationStatus =
        signals.map clearValidationStatus ∧
    ((filter_signals signals).2.all fun s => s.validation_status == some "passed") = true := by
  induction signals with
  | nil => simp [filter_signals]
  | cons s rest ih =>
    obtain ⟨ih1, ih2, ih3⟩ := ih
    by_cases h : is_valid_signal s
    · refine ⟨?_, ?_, ?_⟩
      · simp only [filter_signals, h, if_true, List.map_cons]
        exact List.Sublist.cons₂ _ ih1
      · simp only [filter_signals, h, if_true, List.map_cons]
        exact congrArg (fun l => clearValidationStatus (setStatusPassed s) :: l) ih2
      · simp only [filter_signals, h, if_true, List.all_cons, setStatusPassed]
        simpa using ih3
    · simp only [Bool.not_eq_true] at h
      refine ⟨?_, ?_, ?_⟩
      · simp only [filter_signals, h, Bool.false_eq_true, if_false, List.map_cons]
        exact List.Sublist.cons _ ih1
      · simp only [filter_signals, h, Bool.false_eq_true, if_false, List.map_cons]
        exact congrArg (fun l => clearValidationStatus s :: l) ih2
      · simp only [filter_signals, h, Bool.false_eq_true, if_false]
        exact ih3

end LeadQual
